import Mathlib

/-!
Shallow embedding of the kitsu-org/verify age-verification gateway
(src/main.ts, class AgeVerificationSystem) and proofs about it.
External collaborators (Stripe identity API, Misskey moderation API)
are modelled as oracles in an `Env` record; each handler is a pure
function from the connection registry and its inputs to a new registry,
a trace of externally visible effects, and an optional thrown error
(JavaScript TypeError on a missing-property dereference, or the
explicitly thrown string in the source).
-/

namespace KitsuVerify

/-- Provider verification session as the code observes it through
`verificationSessions.retrieve` / `create`: `id`, `status`,
`client_secret`, `last_error?.code`, `metadata.identity`. -/
structure Session where
  id : String
  status : String
  clientSecret : Option String
  lastErrorCode : Option String
  metadataIdentity : String
deriving DecidableEq, Repr

/-- Platform user record as the code observes it through `users/show`:
`id`, `username`, `moderationNote` (nullable). -/
structure UserDetailed where
  id : String
  username : String
  moderationNote : Option String
deriving DecidableEq, Repr

/-- One entry of `accountsOpen`: the socket is implicit in the identity
key; `stripe` is the optional stored verification session. -/
structure ConnEntry where
  stripe : Option Session
deriving DecidableEq, Repr

/-- The `accountsOpen` registry, as an association list keyed by identity. -/
abbrev RegState := List (String × ConnEntry)

/-- Outbound socket messages, one constructor per concrete shape the
source serializes (`sendMessage` calls and the raw `ws.send` in
`handleStripeCancel`). -/
inductive OutMsg where
  | connected
  | stripeSession (clientSecret : String)
  | verificationFailedCode (code : Option String)
  | verificationFailedReason (reason : String)
  | verificationIncomplete
  | verificationComplete (verificationId : String)
  | verificationCompleteStep (step : String)
  | failedIdentification
  | identification (username : String) (banType : String)
deriving DecidableEq, Repr

/-- Externally visible side effects performed by the handlers. -/
inductive Effect where
  | send (identity : String) (m : OutMsg)
  | closeWs (identity : String)
  | createSession (identity : String)
  | redact (sessionId : String)
  | updateNote (userId : String) (text : Option String)
  | unsuspend (userId : String)
deriving DecidableEq, Repr

/-- Errors a handler can throw: a TypeError from dereferencing a missing
registry entry, or the `throw "Unreachable State??"` in the source. -/
inductive JSError where
  | typeError
  | unreachableState
deriving DecidableEq, Repr

/-- Result of running one handler: the registry afterwards, the effects
performed (in order) up to completion or up to the throw, and the
error if one was thrown. -/
structure HResult where
  state : RegState
  trace : List Effect
  err : Option JSError
deriving DecidableEq, Repr

/-- Oracles for the two external services: `users` is `users/show`
(`none` models a failed lookup, i.e. `getUserInfo` returning `false`),
`sessions` is `verificationSessions.retrieve` by id, and `create` is
`verificationSessions.create` for a given metadata identity. -/
structure Env where
  users : String → Option UserDetailed
  sessions : String → Session
  create : String → Session

/-- Replacement of the first occurrence of `pat` by `rep`, on character
lists; mirrors JavaScript `String.prototype.replace` with a string
pattern (which replaces only the first occurrence, and with an empty
pattern inserts the replacement at the front). -/
def replaceFirstChars (rep pat : List Char) : List Char → List Char
  | [] => if pat.isEmpty then rep else []
  | c :: rest =>
    if pat.isPrefixOf (c :: rest) then rep ++ (c :: rest).drop pat.length
    else c :: replaceFirstChars rep pat rest

/-- JavaScript `s.replace(pat, rep)` with a string pattern. -/
def replaceFirst (s pat rep : String) : String :=
  ⟨replaceFirstChars rep.data pat.data s.data⟩

/-- Substring containment on character lists. -/
def hasInfixChars (sub : List Char) : List Char → Bool
  | [] => sub.isEmpty
  | c :: rest => sub.isPrefixOf (c :: rest) || hasInfixChars sub rest

/-- JavaScript `s.includes(sub)`. -/
def strIncludes (s sub : String) : Bool := hasInfixChars sub.data s.data

/-- Association-list lookup, modelling `this.accountsOpen[identity]`. -/
def lookupEntry : RegState → String → Option ConnEntry
  | [], _ => none
  | (k, v) :: rest, ident => if k == ident then some v else lookupEntry rest ident

/-- Association-list insert-or-replace, modelling assignment to
`this.accountsOpen[identity]` (or mutation of its `stripe` field). -/
def setEntry : RegState → String → ConnEntry → RegState
  | [], ident, e => [(ident, e)]
  | (k, v) :: rest, ident, e =>
    if k == ident then (k, e) :: rest else (k, v) :: setEntry rest ident e

/-- The effect of `updateUserNote(user, newNote)` in the source: the new
text sent to `admin/update-user-note` is
`user.moderationNote?.replace("ADM-ID/minor", newNote)` — first-occurrence
substring replacement, `undefined` when the note is absent. -/
def updateUserNote (user : UserDetailed) (newNote : String) : Effect :=
  .updateNote user.id
    (user.moderationNote.map (fun n => replaceFirst n "ADM-ID/minor" newNote))

/-- Result of `handleWebSocketUpgrade`: a 400 client error, a 500 server
error when `server.upgrade` fails, or a successful upgrade carrying the
identity stored in the socket data. -/
inductive UpgradeResult where
  | clientError (status : Nat) (body : String)
  | serverError (status : Nat) (body : String)
  | upgraded (identity : String)
deriving DecidableEq, Repr

/-- The `handleWebSocketUpgrade` handler: `identityParam` is
`url.searchParams.get("identity")` (`none` when absent), `upgradeOk` is
the outcome of `server.upgrade`. `!identity` is true for the missing
and the empty string. -/
def handleWebSocketUpgrade (identityParam : Option String)
    (upgradeOk : Bool) : UpgradeResult :=
  match identityParam with
  | none => .clientError 400 "Invalid identity"
  | some identity =>
    if identity == "" || identity == "GUESTID" then
      .clientError 400 "Invalid identity"
    else if upgradeOk then .upgraded identity
    else .serverError 500 "WebSocket upgrade failed"

/-- The `handleWebSocketOpen` handler: identity "NAH" is closed without a
registry entry; anyone else is registered and acknowledged. -/
def handleWebSocketOpen (st : RegState) (ident : String) :
    RegState × List Effect :=
  if ident == "NAH" then (st, [.closeWs ident])
  else (setEntry st ident ⟨none⟩, [.send ident .connected])

/-- The `handleIdentify` handler: a failed `users/show` lookup is answered
with FailedIdentification; otherwise the moderation note is classified by
substring containment, pending-minor tag first. -/
def handleIdentify (env : Env) (st : RegState) (ident : String)
    (userId : String) : HResult :=
  match env.users userId with
  | none => ⟨st, [.send ident .failedIdentification], none⟩
  | some user =>
    if (user.moderationNote.map (fun n => strIncludes n "ADM-ID/minor")).getD false then
      ⟨st, [.send ident (.identification user.username "conditional")], none⟩
    else if (user.moderationNote.map (fun n => strIncludes n "ADM-ID/perm")).getD false then
      ⟨st, [.send ident (.identification user.username "permanent")], none⟩
    else
      ⟨st, [.send ident (.identification user.username "none")], none⟩

/-- The `handleVerifyRequest` handler: a provider session is created first,
then `this.accountsOpen[identity].stripe = identity` dereferences the
registry entry (TypeError when absent), then the client secret (or `""`)
is sent back. -/
def handleVerifyRequest (env : Env) (st : RegState) (ident : String) : HResult :=
  let session := env.create ident
  match lookupEntry st ident with
  | none => ⟨st, [.createSession ident], some .typeError⟩
  | some _ =>
      ⟨setEntry st ident ⟨some session⟩,
       [.createSession ident,
        .send ident (.stripeSession (session.clientSecret.getD ""))],
       none⟩

/-- The `handleUnsupportedAge` handler: look up the platform user for the
identity with the first "M_" stripped; a failed lookup throws
("Unreachable State??") before any write; otherwise write the note via
`updateUserNote` with the suspension plus deny combination and send
VerificationFailed with reason "underage". -/
def handleUnsupportedAge (env : Env) (st : RegState) (ident : String) : HResult :=
  match env.users (replaceFirst ident "M_" "") with
  | none => ⟨st, [], some .unreachableState⟩
  | some user =>
      ⟨st,
       [updateUserNote user "susp/minor\nADM-ID/perm",
        .send ident (.verificationFailedReason "underage")],
       none⟩

/-- The `handleStripeError` handler: dereferences the registry entry
(TypeError when absent), re-fetches the stored session (id or `""`), and
acts only when the freshly fetched last error code is
"under_supported_age"; every other code is silently ignored. -/
def handleStripeError (env : Env) (st : RegState) (ident : String) : HResult :=
  match lookupEntry st ident with
  | none => ⟨st, [], some .typeError⟩
  | some entry =>
    let errorSession := env.sessions ((entry.stripe.map Session.id).getD "")
    if errorSession.lastErrorCode == some "under_supported_age" then
      handleUnsupportedAge env st ident
    else ⟨st, [], none⟩

/-- The `handleStripeDone` handler: re-fetches the stored session and sends
VerificationIncomplete only when its status is "requires_input". -/
def handleStripeDone (env : Env) (st : RegState) (ident : String) : HResult :=
  match lookupEntry st ident with
  | none => ⟨st, [], some .typeError⟩
  | some entry =>
    let session := env.sessions ((entry.stripe.map Session.id).getD "")
    if session.status == "requires_input" then
      ⟨st, [.send ident .verificationIncomplete], none⟩
    else ⟨st, [], none⟩

/-- The `handleStripeCancel` handler (webhook requires-input dispatch):
dereferences `accountsOpen[session.metadata.identity].ws` unguarded
(TypeError when the entry is absent); an "under_supported_age" last error
drives `handleUnsupportedAge`, any other code is echoed raw as the
VerificationFailed data. -/
def handleStripeCancel (env : Env) (st : RegState) (session : Session) : HResult :=
  match lookupEntry st session.metadataIdentity with
  | none => ⟨st, [], some .typeError⟩
  | some _ =>
    if session.lastErrorCode == some "under_supported_age" then
      handleUnsupportedAge env st session.metadataIdentity
    else
      ⟨st,
       [.send session.metadataIdentity (.verificationFailedCode session.lastErrorCode)],
       none⟩

/-- The `handleVerifiedSession` handler, in source order: send
VerificationComplete with the session id; redact; send the "redact"
progress step; look up the platform user (throwing aborts here, with the
three earlier effects already performed and no note write or unsuspend);
otherwise update the note with the verified tag, unsuspend, send the
"unban" progress step, clear the stored session reference, close. -/
def handleVerifiedSession (env : Env) (st : RegState) (session : Session) : HResult :=
  match lookupEntry st session.metadataIdentity with
  | none => ⟨st, [], some .typeError⟩
  | some _ =>
    match env.users (replaceFirst session.metadataIdentity "M_" "") with
    | none =>
        ⟨st,
         [.send session.metadataIdentity (.verificationComplete session.id),
          .redact session.id,
          .send session.metadataIdentity (.verificationCompleteStep "redact")],
         some .unreachableState⟩
    | some user =>
        ⟨setEntry st session.metadataIdentity ⟨none⟩,
         [.send session.metadataIdentity (.verificationComplete session.id),
          .redact session.id,
          .send session.metadataIdentity (.verificationCompleteStep "redact"),
          updateUserNote user ("ADM-ID/Verified - " ++ session.id),
          .unsuspend user.id,
          .send session.metadataIdentity (.verificationCompleteStep "unban"),
          .closeWs session.metadataIdentity],
         none⟩

/-- Inbound socket frames after JSON parsing: one constructor per
recognized `type`, plus `unknown` for well-formed frames whose type
matches no switch case (a silent no-op in the source). -/
inductive InMsg where
  | verify
  | stripeError (code : String)
  | stripeDone
  | identify (userId : String)
  | unknown
deriving DecidableEq, Repr

/-- The `handleWebSocketMessage` handler: `parsed` is the outcome of
`JSON.parse` on the frame (`none` when it throws, in which case the
connection is closed with no reply); otherwise dispatch on the type.
The payload of a provider-error-signal is ignored by `handleStripeError`
(its declared parameter list drops it). -/
def handleWebSocketMessage (env : Env) (st : RegState) (ident : String)
    (parsed : Option InMsg) : HResult :=
  match parsed with
  | none => ⟨st, [.closeWs ident], none⟩
  | some .verify => handleVerifyRequest env st ident
  | some (.stripeError _) => handleStripeError env st ident
  | some .stripeDone => handleStripeDone env st ident
  | some (.identify userId) => handleIdentify env st ident userId
  | some .unknown => ⟨st, [], none⟩

/-- Result of the webhook endpoint `handleStripeCallback`: a 405 on a
non-POST, a 200 success reply (body understood true) carrying the state
and effects of the dispatch, or a propagated dispatch error, in which
case no success reply is produced. -/
inductive CallbackResult where
  | methodNotAllowed
  | ok (state : RegState) (trace : List Effect)
  | errored (state : RegState) (trace : List Effect) (e : JSError)
deriving DecidableEq, Repr

/-- The `handleStripeCallback` handler: non-POST is 405; the session is
re-fetched by the body's object id; a requires-input event dispatches to
`handleStripeCancel`, a verified event dispatches to
`handleVerifiedSession` only when the re-fetched status is literally
"verified"; any other event type does nothing. The dispatch is awaited
without a try/catch, so a thrown error propagates and the success reply
is not returned. -/
def handleStripeCallback (env : Env) (st : RegState) (method : String)
    (evType : String) (objId : String) : CallbackResult :=
  if method == "POST" then
    let session := env.sessions objId
    if evType == "identity.verification_session.requires_input" then
      let r := handleStripeCancel env st session
      match r.err with
      | none => .ok r.state r.trace
      | some e => .errored r.state r.trace e
    else if evType == "identity.verification_session.verified" then
      if session.status == "verified" then
        let r := handleVerifiedSession env st session
        match r.err with
        | none => .ok r.state r.trace
        | some e => .errored r.state r.trace e
      else .ok st []
    else .ok st []
  else .methodNotAllowed

/-- Whether a webhook callback result is the 200 success reply. -/
def repliesUnderstood : CallbackResult → Bool
  | .ok _ _ => true
  | _ => false

/-- Effect classifier: an outbound socket send. -/
def isSendEff : Effect → Bool
  | .send _ _ => true
  | _ => false

/-- Effect classifier: a socket close. -/
def isCloseEff : Effect → Bool
  | .closeWs _ => true
  | _ => false

/-- Effect classifier: a provider-session redaction. -/
def isRedactEff : Effect → Bool
  | .redact _ => true
  | _ => false

/-- Effect classifier: a moderation-note write. -/
def isUpdateNoteEff : Effect → Bool
  | .updateNote _ _ => true
  | _ => false

/-- Effect classifier: an unsuspend call. -/
def isUnsuspendEff : Effect → Bool
  | .unsuspend _ => true
  | _ => false

/-- Effect classifier: the VerificationComplete send for a given session id. -/
def isCompleteMsgFor (sid : String) : Effect → Bool
  | .send _ (.verificationComplete v) => v == sid
  | _ => false

/-- Index of the first effect satisfying `p`, if any. -/
def firstIdxOf (p : Effect → Bool) : List Effect → Option Nat
  | [] => none
  | e :: rest => if p e then some 0 else (firstIdxOf p rest).map (· + 1)

/-- Inserting an entry makes it the one found for its key. -/
lemma lookupEntry_setEntry_self (st : RegState) (ident : String) (e : ConnEntry) :
    lookupEntry (setEntry st ident e) ident = some e := by
  induction st with
  | nil => simp [setEntry, lookupEntry]
  | cons p rest ih =>
    obtain ⟨k, v⟩ := p
    by_cases hk : k = ident
    · subst hk
      simp [setEntry, lookupEntry]
    · have hk' : (k == ident) = false := by simp [hk]
      simp [setEntry, lookupEntry, hk', ih]

/-- The empty list is a Boolean prefix of every list. -/
lemma isPrefixOf_nil_left (l : List Char) :
    List.isPrefixOf ([] : List Char) l = true := by
  cases l <;> rfl

/-- Any list is a Boolean prefix of itself followed by anything. -/
lemma isPrefixOf_append_self (l t : List Char) : l.isPrefixOf (l ++ t) = true := by
  induction l with
  | nil => exact isPrefixOf_nil_left t
  | cons c cs ih => simp [List.isPrefixOf, ih]

/-- First-occurrence replacement at an exhibited occurrence: when no match
of `pat` starts inside `a`, replacing in `a ++ pat ++ b` substitutes that
occurrence and preserves `a` and `b` verbatim. -/
lemma replaceFirstChars_append (rep pat a b : List Char)
    (h : ∀ i, i < a.length → pat.isPrefixOf ((a ++ (pat ++ b)).drop i) = false) :
    replaceFirstChars rep pat (a ++ (pat ++ b)) = a ++ (rep ++ b) := by
  induction a with
  | nil =>
    show replaceFirstChars rep pat (pat ++ b) = rep ++ b
    cases pat with
    | nil =>
      cases b with
      | nil => simp [replaceFirstChars]
      | cons x xs =>
        show replaceFirstChars rep [] (x :: xs) = rep ++ (x :: xs)
        simp [replaceFirstChars, isPrefixOf_nil_left]
    | cons p ps =>
      show replaceFirstChars rep (p :: ps) (p :: (ps ++ b)) = rep ++ b
      have hp : (p :: ps).isPrefixOf (p :: (ps ++ b)) = true :=
        isPrefixOf_append_self (p :: ps) b
      have hd : List.drop (p :: ps).length (p :: (ps ++ b)) = b := by
        show List.drop (ps.length + 1) (p :: (ps ++ b)) = b
        rw [List.drop_succ_cons]
        exact List.drop_left ps b
      simp only [replaceFirstChars, hp, if_true]
      rw [hd]
  | cons c a' ih =>
    have h0 : pat.isPrefixOf (c :: (a' ++ (pat ++ b))) = false := by
      have h' := h 0 (by simp)
      simpa using h'
    show replaceFirstChars rep pat (c :: (a' ++ (pat ++ b))) = c :: (a' ++ (rep ++ b))
    simp only [replaceFirstChars, h0, Bool.false_eq_true, if_false]
    refine congrArg (c :: ·) (ih ?_)
    intro i hi
    have h' := h (i + 1) (by simpa using Nat.succ_lt_succ hi)
    simpa using h'

/-- Concrete verified session used by witnesses. -/
def sessW : Session := ⟨"s1", "verified", some "cs", none, "u"⟩

/-- Concrete environment: user "u" exists with a pending-minor note,
session "s1" is verified for identity "u". -/
def envW : Env where
  users := fun uid =>
    if uid == "u" then some ⟨"u", "kitsu", some "ADM-ID/minor"⟩ else none
  sessions := fun sid =>
    if sid == "s1" then sessW else ⟨sid, "processing", none, none, "u"⟩
  create := fun ident => ⟨"s1", "requires_input", some "cs", none, ident⟩

/-- Concrete environment in which every platform user lookup fails. -/
def envNoUsers : Env where
  users := fun _ => none
  sessions := fun sid =>
    if sid == "s1" then sessW else ⟨sid, "processing", none, none, "u"⟩
  create := fun ident => ⟨"s1", "requires_input", some "cs", none, ident⟩

/-- C6: for every inbound frame that does not parse as JSON, the connection
is closed immediately and zero outbound messages are sent in response to
that frame. -/
theorem C6_malformed_frame_closes_silently (env : Env) (st : RegState)
    (ident : String) :
    handleWebSocketMessage env st ident none = ⟨st, [.closeWs ident], none⟩ ∧
    (handleWebSocketMessage env st ident none).trace.filter isSendEff = [] :=
  ⟨rfl, rfl⟩

/-- C5 counterexample: the reserved sentinel identity "NAH" is not refused
with a client error at upgrade time — the upgrade succeeds and the socket
is only closed later, in the open handler. -/
theorem C5_counterexample_nah_upgrade_succeeds :
    handleWebSocketUpgrade (some "NAH") true = .upgraded "NAH" ∧
    handleWebSocketUpgrade (some "NAH") true ≠ .clientError 400 "Invalid identity" := by
  decide

/-- C5 amended: "GUESTID" (and a missing or empty identity) is refused with
a 400 client error at upgrade time; "NAH" passes the upgrade but is closed
in the open handler before any registry entry is created; in neither case
does a registry entry for the sentinel come into existence. -/
theorem C5_sentinels_refused (u : Bool) (st : RegState) :
    handleWebSocketUpgrade (some "GUESTID") u = .clientError 400 "Invalid identity" ∧
    handleWebSocketUpgrade none u = .clientError 400 "Invalid identity" ∧
    handleWebSocketUpgrade (some "") u = .clientError 400 "Invalid identity" ∧
    handleWebSocketOpen st "NAH" = (st, [.closeWs "NAH"]) ∧
    lookupEntry (handleWebSocketOpen st "NAH").1 "NAH" = lookupEntry st "NAH" := by
  refine ⟨by cases u <;> rfl, rfl, by cases u <;> rfl, rfl, rfl⟩

/-- C10: for every identify-request whose platform user lookup fails, the
handler sends an identification-failed message, leaves the registry
untouched, throws nothing, and never closes the connection. -/
theorem C10_identify_lookup_failure_nonfatal (env : Env) (st : RegState)
    (ident userId : String) (h : env.users userId = none) :
    handleIdentify env st ident userId =
      ⟨st, [.send ident .failedIdentification], none⟩ ∧
    (handleIdentify env st ident userId).trace.filter isCloseEff = [] := by
  have h1 : handleIdentify env st ident userId =
      ⟨st, [.send ident .failedIdentification], none⟩ := by
    unfold handleIdentify
    rw [h]
  exact ⟨h1, by rw [h1]; rfl⟩

/-- C10 witness: a concrete failing lookup. -/
theorem C10_witness :
    handleIdentify envNoUsers [] "u" "x" =
      ⟨[], [.send "u" .failedIdentification], none⟩ ∧
    (handleIdentify envNoUsers [] "u" "x").trace.filter isCloseEff = [] :=
  C10_identify_lookup_failure_nonfatal envNoUsers [] "u" "x" rfl

/-- C1: the webhook verified event drives the Verified path only when the
re-fetched status is exactly "verified"; on that path the completion
message carrying the session id is the first effect (before redaction),
redaction is the second effect and precedes any socket close, and when
the platform user lookup fails the handler aborts with the thrown error,
performing no moderation-note write, no unsuspend call, and no close. -/
theorem C1_verified_path_order :
    (∀ (env : Env) (st : RegState) (objId : String),
      (env.sessions objId).status ≠ "verified" →
      handleStripeCallback env st "POST"
        "identity.verification_session.verified" objId = .ok st []) ∧
    (∀ (env : Env) (st : RegState) (session : Session) (entry : ConnEntry),
      lookupEntry st session.metadataIdentity = some entry →
      firstIdxOf (isCompleteMsgFor session.id)
        (handleVerifiedSession env st session).trace = some 0 ∧
      firstIdxOf isRedactEff (handleVerifiedSession env st session).trace = some 1 ∧
      (∀ k, firstIdxOf isCloseEff (handleVerifiedSession env st session).trace =
          some k → 1 < k) ∧
      (env.users (replaceFirst session.metadataIdentity "M_" "") = none →
        (handleVerifiedSession env st session).err = some .unreachableState ∧
        (handleVerifiedSession env st session).trace.filter isUpdateNoteEff = [] ∧
        (handleVerifiedSession env st session).trace.filter isUnsuspendEff = [] ∧
        (handleVerifiedSession env st session).trace.filter isCloseEff = [])) := by
  constructor
  · intro env st objId hs
    have hb : ((env.sessions objId).status == "verified") = false := by
      simp only [beq_eq_false_iff_ne, ne_eq]
      exact hs
    simp [handleStripeCallback, hb]
  · intro env st session entry he
    cases hu : env.users (replaceFirst session.metadataIdentity "M_" "") with
    | none =>
      have hv : handleVerifiedSession env st session =
          ⟨st,
           [.send session.metadataIdentity (.verificationComplete session.id),
            .redact session.id,
            .send session.metadataIdentity (.verificationCompleteStep "redact")],
           some .unreachableState⟩ := by
        unfold handleVerifiedSession
        rw [he, hu]
      rw [hv]
      refine ⟨?_, ?_, ?_, fun _ => ⟨rfl, rfl, rfl, rfl⟩⟩
      · simp [firstIdxOf, isCompleteMsgFor]
      · simp [firstIdxOf, isRedactEff, isCompleteMsgFor]
      · intro k hk
        simp [firstIdxOf, isCloseEff] at hk
    | some user =>
      have hv : handleVerifiedSession env st session =
          ⟨setEntry st session.metadataIdentity ⟨none⟩,
           [.send session.metadataIdentity (.verificationComplete session.id),
            .redact session.id,
            .send session.metadataIdentity (.verificationCompleteStep "redact"),
            updateUserNote user ("ADM-ID/Verified - " ++ session.id),
            .unsuspend user.id,
            .send session.metadataIdentity (.verificationCompleteStep "unban"),
            .closeWs session.metadataIdentity],
           none⟩ := by
        unfold handleVerifiedSession
        rw [he, hu]
      rw [hv]
      refine ⟨?_, ?_, ?_, ?_⟩
      · simp [firstIdxOf, isCompleteMsgFor]
      · simp [firstIdxOf, isRedactEff, isCompleteMsgFor]
      · intro k hk
        simp [firstIdxOf, isCloseEff, updateUserNote] at hk
        omega
      · intro hnone
        simp at hnone

/-- C1 witness: concrete instances discharging every hypothesis of the
theorem — a non-verified re-fetch is not dispatched, and the ordered
Verified path, both with the user present and with the lookup failing. -/
theorem C1_witness :
    handleStripeCallback envW [("u", ⟨none⟩)] "POST"
      "identity.verification_session.verified" "s0" = .ok [("u", ⟨none⟩)] [] ∧
    firstIdxOf (isCompleteMsgFor "s1")
      (handleVerifiedSession envW [("u", ⟨none⟩)] sessW).trace = some 0 ∧
    firstIdxOf isRedactEff
      (handleVerifiedSession envW [("u", ⟨none⟩)] sessW).trace = some 1 ∧
    (handleVerifiedSession envNoUsers [("u", ⟨none⟩)] sessW).err =
      some .unreachableState ∧
    (handleVerifiedSession envNoUsers [("u", ⟨none⟩)] sessW).trace.filter
      isUpdateNoteEff = [] :=
  ⟨C1_verified_path_order.1 envW [("u", ⟨none⟩)] "s0" (by decide),
   (C1_verified_path_order.2 envW [("u", ⟨none⟩)] sessW ⟨none⟩ (by decide)).1,
   (C1_verified_path_order.2 envW [("u", ⟨none⟩)] sessW ⟨none⟩ (by decide)).2.1,
   ((C1_verified_path_order.2 envNoUsers [("u", ⟨none⟩)] sessW ⟨none⟩
      (by decide)).2.2.2 (by decide)).1,
   ((C1_verified_path_order.2 envNoUsers [("u", ⟨none⟩)] sessW ⟨none⟩
      (by decide)).2.2.2 (by decide)).2.1⟩

/-- Concrete environment: user "testUser" has other note content around the
pending-minor tag. -/
def env2 : Env where
  users := fun uid =>
    if uid == "testUser" then
      some ⟨"testUser", "kitsu", some "X ADM-ID/minor Y"⟩
    else none
  sessions := fun sid => ⟨sid, "requires_input", none, some "under_supported_age", "testUser"⟩
  create := fun ident => ⟨"c1", "requires_input", some "cs", none, ident⟩

/-- Concrete environment: user "testUser" has line content around the
pending-minor tag. -/
def env2w : Env where
  users := fun uid =>
    if uid == "testUser" then
      some ⟨"testUser", "kitsu", some "foo\nADM-ID/minor\nbar"⟩
    else none
  sessions := fun sid => ⟨sid, "requires_input", none, some "under_supported_age", "testUser"⟩
  create := fun ident => ⟨"c1", "requires_input", some "cs", none, ident⟩

/-- C2 counterexample: on a prior note with content around the
pending-minor tag, the Denied path does not overwrite the entire note with
the fixed suspension plus deny combination; the surrounding content is
kept and only the tag is substituted. -/
theorem C2_counterexample_not_full_overwrite :
    (handleUnsupportedAge env2 [] "testUser").trace =
      [.updateNote "testUser" (some "X susp/minor\nADM-ID/perm Y"),
       .send "testUser" (.verificationFailedReason "underage")] ∧
    (handleUnsupportedAge env2 [] "testUser").trace ≠
      [.updateNote "testUser" (some "susp/minor\nADM-ID/perm"),
       .send "testUser" (.verificationFailedReason "underage")] := by
  decide

/-- C2 amended: the Denied path writes the moderation note by the same
targeted in-place substring replacement as the Verified path — the first
occurrence of the pending-minor tag is replaced by the fixed suspension
plus deny combination and all other note content is preserved verbatim;
it is not a full overwrite, and the two paths are symmetric in mechanism. -/
theorem C2_deny_writes_in_place (env : Env) (st : RegState) (ident : String)
    (user : UserDetailed) (a b : List Char)
    (hu : env.users (replaceFirst ident "M_" "") = some user)
    (hn : user.moderationNote = some ⟨a ++ ("ADM-ID/minor".data ++ b)⟩)
    (ha : ∀ i, i < a.length →
      "ADM-ID/minor".data.isPrefixOf
        ((a ++ ("ADM-ID/minor".data ++ b)).drop i) = false) :
    handleUnsupportedAge env st ident =
      ⟨st,
       [.updateNote user.id (some ⟨a ++ ("susp/minor\nADM-ID/perm".data ++ b)⟩),
        .send ident (.verificationFailedReason "underage")],
       none⟩ := by
  have hr : replaceFirst ⟨a ++ ("ADM-ID/minor".data ++ b)⟩
      "ADM-ID/minor" "susp/minor\nADM-ID/perm" =
      ⟨a ++ ("susp/minor\nADM-ID/perm".data ++ b)⟩ := by
    show (⟨replaceFirstChars "susp/minor\nADM-ID/perm".data "ADM-ID/minor".data
        (a ++ ("ADM-ID/minor".data ++ b))⟩ : String) = _
    rw [replaceFirstChars_append _ _ _ _ ha]
  unfold handleUnsupportedAge
  rw [hu]
  simp only [updateUserNote, hn, Option.map_some', hr]

/-- C2 witness: a concrete note with lines around the tag, preserved by the
deny write. -/
theorem C2_witness :
    handleUnsupportedAge env2w [] "testUser" =
      ⟨[],
       [.updateNote "testUser" (some "foo\nsusp/minor\nADM-ID/perm\nbar"),
        .send "testUser" (.verificationFailedReason "underage")],
       none⟩ :=
  C2_deny_writes_in_place env2w [] "testUser"
    ⟨"testUser", "kitsu", some "foo\nADM-ID/minor\nbar"⟩
    "foo\n".data "\nbar".data (by decide) (by decide) (by decide)

/-- Concrete session whose freshly fetched last error is consent_declined. -/
def sess3c : Session := ⟨"s1", "requires_input", none, some "consent_declined", "testUser"⟩

/-- Concrete session whose freshly fetched last error is under_supported_age. -/
def sess3u : Session := ⟨"s1", "requires_input", none, some "under_supported_age", "testUser"⟩

/-- Concrete environment whose re-fetches yield a consent_declined error. -/
def env3c : Env where
  users := fun uid =>
    if uid == "testUser" then some ⟨"testUser", "kitsu", some "ADM-ID/minor"⟩
    else none
  sessions := fun _ => sess3c
  create := fun ident => ⟨"s1", "requires_input", some "cs", none, ident⟩

/-- Concrete environment whose re-fetches yield an under_supported_age error. -/
def env3u : Env where
  users := fun uid =>
    if uid == "testUser" then some ⟨"testUser", "kitsu", some "ADM-ID/minor"⟩
    else none
  sessions := fun _ => sess3u
  create := fun ident => ⟨"s1", "requires_input", some "cs", none, ident⟩

/-- C3: on a client provider-error-signal, the handler classifies by the
freshly fetched last error code; an under-supported-age code drives the
Denied(underage) path, but a consent_declined code — which the
repository's own test expects to be answered with a verification-failed
message — produces no outbound message at all and no error: it is
silently dropped. -/
theorem C3_error_signal_classification :
    (handleStripeError env3u [("testUser", ⟨some sess3u⟩)] "testUser").trace =
      [.updateNote "testUser" (some "susp/minor\nADM-ID/perm"),
       .send "testUser" (.verificationFailedReason "underage")] ∧
    (handleStripeError env3c [("testUser", ⟨some sess3c⟩)] "testUser").trace = [] ∧
    (handleStripeError env3c [("testUser", ⟨some sess3c⟩)] "testUser").err = none := by
  decide

/-- C4 counterexample: the Denied path reaches its terminal outcome (the
failure message is sent, nothing is thrown) yet the stored verification
session reference is not cleared. -/
theorem C4_counterexample_denied_keeps_ref :
    (handleUnsupportedAge env3u [("testUser", ⟨some sess3u⟩)] "testUser").err = none ∧
    (handleUnsupportedAge env3u [("testUser", ⟨some sess3u⟩)] "testUser").trace =
      [.updateNote "testUser" (some "susp/minor\nADM-ID/perm"),
       .send "testUser" (.verificationFailedReason "underage")] ∧
    lookupEntry (handleUnsupportedAge env3u [("testUser", ⟨some sess3u⟩)]
      "testUser").state "testUser" = some ⟨some sess3u⟩ ∧
    lookupEntry (handleUnsupportedAge env3u [("testUser", ⟨some sess3u⟩)]
      "testUser").state "testUser" ≠ some ⟨none⟩ := by
  decide

/-- C4 amended: the session reference is set on a verify request and
cleared on the Verified terminal path, but the Denied path leaves the
registry — and with it the stored reference — completely unchanged. -/
theorem C4_session_ref_lifecycle :
    (∀ (env : Env) (st : RegState) (ident : String) (entry : ConnEntry),
      lookupEntry st ident = some entry →
      lookupEntry (handleVerifyRequest env st ident).state ident =
        some ⟨some (env.create ident)⟩) ∧
    (∀ (env : Env) (st : RegState) (session : Session) (entry : ConnEntry)
      (user : UserDetailed),
      lookupEntry st session.metadataIdentity = some entry →
      env.users (replaceFirst session.metadataIdentity "M_" "") = some user →
      lookupEntry (handleVerifiedSession env st session).state
        session.metadataIdentity = some ⟨none⟩) ∧
    (∀ (env : Env) (st : RegState) (ident : String),
      (handleUnsupportedAge env st ident).state = st) := by
  refine ⟨?_, ?_, ?_⟩
  · intro env st ident entry he
    have hv : (handleVerifyRequest env st ident).state =
        setEntry st ident ⟨some (env.create ident)⟩ := by
      unfold handleVerifyRequest
      rw [he]
    rw [hv]
    exact lookupEntry_setEntry_self st ident ⟨some (env.create ident)⟩
  · intro env st session entry user he hu
    have hv : (handleVerifiedSession env st session).state =
        setEntry st session.metadataIdentity ⟨none⟩ := by
      unfold handleVerifiedSession
      rw [he, hu]
    rw [hv]
    exact lookupEntry_setEntry_self st session.metadataIdentity ⟨none⟩
  · intro env st ident
    unfold handleUnsupportedAge
    cases env.users (replaceFirst ident "M_" "") <;> rfl

/-- C4 witness: the three lifecycle facts at concrete inputs. -/
theorem C4_witness :
    lookupEntry (handleVerifyRequest envW [("u", ⟨none⟩)] "u").state "u" =
      some ⟨some (envW.create "u")⟩ ∧
    lookupEntry (handleVerifiedSession envW [("u", ⟨none⟩)] sessW).state "u" =
      some ⟨none⟩ ∧
    (handleUnsupportedAge envW [("u", ⟨none⟩)] "u").state = [("u", ⟨none⟩)] :=
  ⟨C4_session_ref_lifecycle.1 envW [("u", ⟨none⟩)] "u" ⟨none⟩ (by decide),
   C4_session_ref_lifecycle.2.1 envW [("u", ⟨none⟩)] sessW ⟨none⟩
     ⟨"u", "kitsu", some "ADM-ID/minor"⟩ (by decide) (by decide),
   C4_session_ref_lifecycle.2.2 envW [("u", ⟨none⟩)] "u"⟩

/-- C7 counterexample: a POST webhook whose dispatch is attempted but
throws (a requires-input event for an identity with no registry entry)
does not produce the success reply — the error propagates instead. -/
theorem C7_counterexample_dispatch_error_no_reply :
    handleStripeCallback env3c [] "POST"
      "identity.verification_session.requires_input" "s1" =
      .errored [] [] .typeError ∧
    repliesUnderstood (handleStripeCallback env3c [] "POST"
      "identity.verification_session.requires_input" "s1") = false := by
  decide

/-- C7 amended: the webhook endpoint replies success exactly when the
attempted dispatch completes without throwing: for a requires-input event
the reply is success iff the cancel dispatch threw nothing, for a verified
event iff either the re-fetched status is not "verified" (no dispatch) or
the verified dispatch threw nothing, and a non-POST request is never a
success reply. -/
theorem C7_callback_reply_iff_dispatch_clean (env : Env) (st : RegState)
    (objId : String) :
    repliesUnderstood (handleStripeCallback env st "POST"
      "identity.verification_session.requires_input" objId) =
      (handleStripeCancel env st (env.sessions objId)).err.isNone ∧
    repliesUnderstood (handleStripeCallback env st "POST"
      "identity.verification_session.verified" objId) =
      (!((env.sessions objId).status == "verified") ||
        (handleVerifiedSession env st (env.sessions objId)).err.isNone) ∧
    repliesUnderstood (handleStripeCallback env st "GET"
      "identity.verification_session.verified" objId) = false := by
  refine ⟨?_, ?_, rfl⟩
  · cases h : (handleStripeCancel env st (env.sessions objId)).err with
    | none => simp [handleStripeCallback, repliesUnderstood, h]
    | some e => simp [handleStripeCallback, repliesUnderstood, h]
  · cases hs : ((env.sessions objId).status == "verified") with
    | false => simp [handleStripeCallback, repliesUnderstood, hs]
    | true =>
      cases h : (handleVerifiedSession env st (env.sessions objId)).err with
      | none => simp [handleStripeCallback, repliesUnderstood, hs, h]
      | some e => simp [handleStripeCallback, repliesUnderstood, hs, h]

/-- Concrete environment: user "testUser" carries the note the Denied path
has just written. -/
def env8r : Env where
  users := fun uid =>
    if uid == "testUser" then
      some ⟨"testUser", "kitsu", some "susp/minor\nADM-ID/perm"⟩
    else none
  sessions := fun _ => sess3u
  create := fun ident => ⟨"s1", "requires_input", some "cs", none, ident⟩

/-- C8: the permanent-deny tag written by the Denied path and the tag the
identify classification reads are the same literal "ADM-ID/perm" — they do
not differ in letter case in the code: the freshly written note is
classified "permanent". The repository's own test instead expects the
written combination with a capitalized tag, which the written text is not;
the case discrepancy is between the code and its test, not between write
and read inside the code. -/
theorem C8_deny_tag_casing_matches :
    (handleUnsupportedAge env3u [("testUser", ⟨some sess3u⟩)] "testUser").trace =
      [.updateNote "testUser" (some "susp/minor\nADM-ID/perm"),
       .send "testUser" (.verificationFailedReason "underage")] ∧
    strIncludes "susp/minor\nADM-ID/perm" "ADM-ID/perm" = true ∧
    (handleIdentify env8r [] "mod" "testUser").trace =
      [.send "mod" (.identification "kitsu" "permanent")] ∧
    "susp/minor\nADM-ID/perm" ≠ "susp/minor\nADM-ID/Perm" := by
  decide

/-- C9: the webhook dispatch handlers dereference the registry entry for
the re-fetched session's metadata identity unguarded: whenever that
identity has no live entry both handlers throw the TypeError immediately
with no effects performed, and whenever an entry is present that TypeError
cannot occur. -/
theorem C9_unguarded_registry_deref :
    (∀ (env : Env) (st : RegState) (session : Session),
      lookupEntry st session.metadataIdentity = none →
      handleStripeCancel env st session = ⟨st, [], some .typeError⟩ ∧
      handleVerifiedSession env st session = ⟨st, [], some .typeError⟩) ∧
    (∀ (env : Env) (st : RegState) (session : Session) (entry : ConnEntry),
      lookupEntry st session.metadataIdentity = some entry →
      (handleStripeCancel env st session).err ≠ some .typeError ∧
      (handleVerifiedSession env st session).err ≠ some .typeError) := by
  constructor
  · intro env st session he
    constructor
    · unfold handleStripeCancel
      rw [he]
    · unfold handleVerifiedSession
      rw [he]
  · intro env st session entry he
    constructor
    · unfold handleStripeCancel
      rw [he]
      by_cases hc : (session.lastErrorCode == some "under_supported_age") = true
      · rw [if_pos hc]
        unfold handleUnsupportedAge
        cases env.users (replaceFirst session.metadataIdentity "M_" "") <;> simp
      · rw [if_neg hc]
        simp
    · unfold handleVerifiedSession
      rw [he]
      cases env.users (replaceFirst session.metadataIdentity "M_" "") <;> simp

/-- C9 witness: the missing-entry crash and the guarded case at concrete
inputs. -/
theorem C9_witness :
    handleStripeCancel envW [] sessW = ⟨[], [], some .typeError⟩ ∧
    handleVerifiedSession envW [] sessW = ⟨[], [], some .typeError⟩ ∧
    (handleStripeCancel envW [("u", ⟨none⟩)] sessW).err ≠ some .typeError :=
  ⟨(C9_unguarded_registry_deref.1 envW [] sessW rfl).1,
   (C9_unguarded_registry_deref.1 envW [] sessW rfl).2,
   (C9_unguarded_registry_deref.2 envW [("u", ⟨none⟩)] sessW ⟨none⟩ (by decide)).1⟩

end KitsuVerify
